import Mathlib

/-!
Shallow embedding of `src/fetch_data.py` (GitHub Analytics Dashboard data
fetcher).  Pure reducers become Lean functions over explicit data types;
Python exceptions become `Except PyErr`; Python `dict`s (built with
`defaultdict(int)`) become insertion-ordered association lists; floats
become exact rationals.  The HTTP transport is the out-of-scope external
collaborator: a `World` record supplies the responses the fetch layer
would receive.
-/

/-- Python exception kinds the embedded functions can raise. -/
inductive PyErr where
  | valueError
  | nameError
deriving DecidableEq

/-- A parsed `datetime` value (proleptic Gregorian calendar, as Python's
`datetime`). -/
structure DateTime where
  year : Nat
  month : Nat
  day : Nat
  hour : Nat
  minute : Nat
  second : Nat
deriving DecidableEq

/-- Gregorian leap-year rule. -/
def isLeap (y : Nat) : Bool :=
  (y % 4 == 0 && !(y % 100 == 0)) || y % 400 == 0

/-- Number of days in a month. -/
def daysInMonth (y m : Nat) : Nat :=
  if m == 2 then (if isLeap y then 29 else 28)
  else if m == 4 || m == 6 || m == 9 || m == 11 then 30
  else 31

/-- Days in year `y` strictly before month `m`. -/
def daysBeforeMonth (y m : Nat) : Nat :=
  (List.range (m - 1)).foldl (fun acc i => acc + daysInMonth y (i + 1)) 0

/-- Proleptic Gregorian ordinal, as Python's `date.toordinal`
(0001-01-01 has ordinal 1). -/
def toOrdinal (dt : DateTime) : Nat :=
  365 * (dt.year - 1) + (dt.year - 1) / 4 - (dt.year - 1) / 100 + (dt.year - 1) / 400
    + daysBeforeMonth dt.year dt.month + dt.day

/-- English weekday names, as `strftime('%A')` in the C locale. -/
def weekdayNames : List String :=
  ["Monday", "Tuesday", "Wednesday", "Thursday", "Friday", "Saturday", "Sunday"]

/-- `dt.strftime('%A')`: 0001-01-01 (ordinal 1) was a Monday. -/
def weekdayName (dt : DateTime) : String :=
  weekdayNames.getD ((toOrdinal dt + 6) % 7) ""

/-- Seconds from the epoch of the proleptic calendar, used for
`(closed - created).total_seconds()`. -/
def totalSeconds (dt : DateTime) : Int :=
  (toOrdinal dt : Int) * 86400 + dt.hour * 3600 + dt.minute * 60 + dt.second

/-- Numeric value of a decimal digit character. -/
def digitVal (c : Char) : Nat := c.toNat - 48

/-- Two decimal digits. -/
def twoDigits (a b : Char) : Option Nat :=
  if a.isDigit && b.isDigit then some (digitVal a * 10 + digitVal b) else none

/-- Four decimal digits. -/
def fourDigits (a b c d : Char) : Option Nat :=
  if a.isDigit && b.isDigit && c.isDigit && d.isDigit then
    some (((digitVal a * 10 + digitVal b) * 10 + digitVal c) * 10 + digitVal d)
  else none

/-- Field-range validation performed by `datetime.strptime`. -/
def validDateTime (y mo d h mi s : Nat) : Bool :=
  decide (1 ≤ y ∧ 1 ≤ mo ∧ mo ≤ 12 ∧ 1 ≤ d ∧ d ≤ daysInMonth y mo
    ∧ h ≤ 23 ∧ mi ≤ 59 ∧ s ≤ 59)

/-- `datetime.strptime(s, '%Y-%m-%dT%H:%M:%SZ')`: `none` models the
`ValueError` raised on a string that does not match the format. -/
def strptime (s : String) : Option DateTime :=
  match s.data with
  | [y1, y2, y3, y4, sep1, m1, m2, sep2, d1, d2, sepT, h1, h2, c1, n1, n2, c2, sc1, sc2, z] =>
    if sep1 == '-' && sep2 == '-' && sepT == 'T' && c1 == ':' && c2 == ':' && z == 'Z' then
      match fourDigits y1 y2 y3 y4, twoDigits m1 m2, twoDigits d1 d2,
            twoDigits h1 h2, twoDigits n1 n2, twoDigits sc1 sc2 with
      | some y, some mo, some d, some h, some mi, some sec =>
        if validDateTime y mo d h mi sec then some ⟨y, mo, d, h, mi, sec⟩ else none
      | _, _, _, _, _, _ => none
    else none
  | _ => none

/-- Left-pad a numeral with zeros to width `w`. -/
def padZeros (w n : Nat) : String :=
  let s := toString n
  String.mk (List.replicate (w - s.length) '0') ++ s

/-- `dt.strftime('%Y-%m')`. -/
def ymKey (dt : DateTime) : String :=
  padZeros 4 dt.year ++ "-" ++ padZeros 2 dt.month

/-- Round a rational to the nearest integer, ties to even, as Python's
built-in `round`. -/
def roundHalfEven (q : ℚ) : ℤ :=
  if q - ⌊q⌋ = (1 : ℚ) / 2 then (if ⌊q⌋ % 2 = 0 then ⌊q⌋ else ⌊q⌋ + 1) else round q

/-- `round(x, 1)` over exact rationals. -/
def pyRound1 (q : ℚ) : ℚ := (roundHalfEven (q * 10) : ℚ) / 10

/-- `m[k] += n` on an insertion-ordered mapping with integer default 0
(`defaultdict(int)`). -/
def incrBy {α : Type} [DecidableEq α] : List (α × Nat) → α → Nat → List (α × Nat)
  | [], k, n => [(k, n)]
  | (k', v) :: rest, k, n =>
    if k = k' then (k', v + n) :: rest else (k', v) :: incrBy rest k n

/-- Lookup with default 0 in an association list. -/
def getCount {α : Type} [DecidableEq α] : List (α × Nat) → α → Nat
  | [], _ => 0
  | (k', v) :: rest, k => if k = k' then v else getCount rest k

/-- Sum of the values of a mapping. -/
def sumVals {α : Type} (m : List (α × Nat)) : Nat :=
  (m.map (fun kv => kv.2)).sum

/-- A parsed user object (`GET /users/{username}` body). -/
structure Profile where
  login : String
  name : Option String
  bio : Option String
  public_repos : Nat
  followers : Nat
  following : Nat
  created_at : String
deriving DecidableEq

/-- A repository record; `owner` is the nested `owner.login`, `license`
is the truthiness of the nested license object. -/
structure Repo where
  name : String
  owner : String
  language : Option String
  stargazers_count : Nat
  forks_count : Nat
  license : Bool
deriving DecidableEq

/-- A commit sub-record carried by a push-event payload; only the length
of the commit list is consumed. -/
structure CommitEntry where
  sha : String
  message : String
deriving DecidableEq

/-- The nested pull-request record of a pull-request event payload.
Timestamp fields are optional: a missing key raises `KeyError`, which the
source catches together with parse failures. -/
structure PullRequestRec where
  merged : Bool
  created_at : Option String
  closed_at : Option String
deriving DecidableEq

/-- An event payload; every field is `.get`-accessed in the source. -/
structure Payload where
  commits : Option (List CommitEntry)
  action : Option String
  pull_request : Option PullRequestRec
deriving DecidableEq

/-- An event: `type` and `created_at` are always present (data model),
`payload` is `.get`-accessed with default `{}`. -/
structure Event where
  type : String
  created_at : String
  payload : Option Payload
deriving DecidableEq

/-- One step of `analyze_languages`: Python's `if repo['language']:` is a
truthiness test, so both a null and an empty-string language are skipped. -/
def langStep (m : List (String × Nat)) (r : Repo) : List (String × Nat) :=
  match r.language with
  | none => m
  | some s => if s = "" then m else incrBy m s 1

/-- `analyze_languages` (fetch_data.py lines 51-56). -/
def analyze_languages (repos : List Repo) : List (String × Nat) :=
  repos.foldl langStep []

/-- Truthiness of `repo['language']`. -/
def truthyLang (r : Repo) : Bool :=
  match r.language with
  | none => false
  | some s => decide (s ≠ "")

/-- The loop of `analyze_commit_times` (lines 58-68): `strptime` is not
guarded, so a malformed `created_at` on a push event raises `ValueError`. -/
def commitTimesLoop :
    List Event → List (Nat × Nat) × List (String × Nat) →
      Except PyErr (List (Nat × Nat) × List (String × Nat))
  | [], acc => Except.ok acc
  | e :: es, acc =>
    if e.type = "PushEvent" then
      match strptime e.created_at with
      | none => Except.error PyErr.valueError
      | some dt =>
        commitTimesLoop es (incrBy acc.1 dt.hour 1, incrBy acc.2 (weekdayName dt) 1)
    else commitTimesLoop es acc

/-- `analyze_commit_times` (lines 58-68): hour-of-day and weekday
histograms over push events. -/
def analyze_commit_times (events : List Event) :
    Except PyErr (List (Nat × Nat) × List (String × Nat)) :=
  commitTimesLoop events ([], [])

/-- `analyze_activity_types` (lines 70-74). -/
def analyze_activity_types (events : List Event) : List (String × Nat) :=
  events.foldl (fun m e => incrBy m e.type 1) []

/-- `len(event.get('payload', {}).get('commits', []))`. -/
def commitsLen (e : Event) : Nat :=
  match e.payload with
  | none => 0
  | some p => (p.commits.getD []).length

/-- The counting loop of `analyze_monthly_commits` (lines 78-83):
`counts[key] += commits or 1`, with unguarded `strptime`. -/
def monthlyLoop : List Event → List (String × Nat) → Except PyErr (List (String × Nat))
  | [], counts => Except.ok counts
  | e :: es, counts =>
    if e.type = "PushEvent" then
      match strptime e.created_at with
      | none => Except.error PyErr.valueError
      | some dt =>
        let c := commitsLen e
        monthlyLoop es (incrBy counts (ymKey dt) (if c = 0 then 1 else c))
    else monthlyLoop es counts

/-- Insert an item into a key-sorted association list (keys are unique
in a dict, so key comparison decides the order). -/
def keyInsert (x : String × Nat) : List (String × Nat) → List (String × Nat)
  | [] => [x]
  | y :: ys => if x.1 < y.1 then x :: y :: ys else y :: keyInsert x ys

/-- `dict(sorted(counts.items()))`. -/
def keySort : List (String × Nat) → List (String × Nat)
  | [] => []
  | x :: xs => keyInsert x (keySort xs)

/-- `analyze_monthly_commits` (lines 76-89).  The back-fill loop body
(line 87) references `timedelta`, but the module imports only `datetime`
from the `datetime` package (line 4), so the first back-fill iteration
raises `NameError`; with `months = 0` (empty `range`) the loop body never
runs and the sorted counts are returned.  `now` models
`datetime.utcnow()`, evaluated before the failing loop. -/
def analyze_monthly_commits (now : DateTime) (events : List Event) (months : Nat) :
    Except PyErr (List (String × Nat)) :=
  match monthlyLoop events [] with
  | Except.error e => Except.error e
  | Except.ok counts =>
    if months = 0 then Except.ok (keySort counts) else Except.error PyErr.nameError

/-- Truthiness of `pr.get('merged')` where
`pr = event.get('payload', {}).get('pull_request') or {}`. -/
def prMergedFlag (e : Event) : Bool :=
  ((e.payload.bind fun p => p.pull_request).map fun pr => pr.merged).getD false

/-- `event.get('payload', {}).get('action') in ('closed',)`. -/
def prActionClosed (e : Event) : Bool :=
  decide ((e.payload.bind fun p => p.action) = some ("closed"))

/-- An event that is counted in `merged_prs`. -/
def isMergedPR (e : Event) : Bool :=
  decide (e.type = "PullRequestEvent") && (prActionClosed e && prMergedFlag e)

/-- Hours between the nested pull-request record's created and closed
timestamps; `none` models the `KeyError`/`ValueError` swallowed by the
`try` block (lines 101-106). -/
def prDuration (e : Event) : Option ℚ :=
  match e.payload.bind fun p => p.pull_request with
  | none => none
  | some pr =>
    match pr.created_at, pr.closed_at with
    | some c, some cl =>
      match strptime c, strptime cl with
      | some dc, some dcl =>
        some (((totalSeconds dcl - totalSeconds dc : ℤ) : ℚ) / 3600)
      | _, _ => none
    | _, _ => none

/-- Output record of `analyze_pr_stats`. -/
structure PRStats where
  total_prs : Nat
  merged_prs : Nat
  merge_rate : Option ℚ
  avg_time_to_merge_hours : Option ℚ
deriving DecidableEq

/-- The event loop of `analyze_pr_stats` (lines 95-106), accumulating
`(total_prs, merged_prs, merge_durations)`. -/
def prLoop : List Event → Nat × Nat × List ℚ → Nat × Nat × List ℚ
  | [], acc => acc
  | e :: es, (t, m, ds) =>
    if e.type = "PullRequestEvent" then
      if prActionClosed e && prMergedFlag e then
        match prDuration e with
        | some d => prLoop es (t + 1, m + 1, ds ++ [d])
        | none => prLoop es (t + 1, m + 1, ds)
      else prLoop es (t + 1, m, ds)
    else prLoop es (t, m, ds)

/-- `analyze_pr_stats` (lines 91-114).  Note line 113:
`round(avg_time, 1) if avg_time else None` is a truthiness test, so a
zero average also yields `None`. -/
def analyze_pr_stats (events : List Event) : PRStats :=
  let acc := prLoop events (0, 0, [])
  let total_prs := acc.1
  let merged_prs := acc.2.1
  let merge_durations := acc.2.2
  let merge_rate : Option ℚ :=
    if total_prs = 0 then none else some ((merged_prs : ℚ) / (total_prs : ℚ))
  let avg_time : Option ℚ :=
    if merge_durations = [] then none
    else some (merge_durations.sum / (merge_durations.length : ℚ))
  ⟨total_prs, merged_prs, merge_rate,
    match avg_time with
    | none => none
    | some a => if a = 0 then none else some (pyRound1 a)⟩

/-- The list of merge durations `analyze_pr_stats` computes, stated
directly: one entry per merged pull-request event whose nested record has
parseable created and closed timestamps. -/
def mergeDurations (events : List Event) : List ℚ :=
  (events.filter isMergedPR).filterMap prDuration

/-- Output record of `analyze_repo_health`. -/
structure Health where
  has_readme : Nat
  has_ci : Nat
  has_tests : Nat
  has_license : Nat
  total_repos_checked : Nat
deriving DecidableEq

/-- A content probe succeeded: status 200 and no exception raised. -/
def probeOk (probe : String → Except Unit Nat) (path : String) : Bool :=
  match probe path with
  | Except.ok st => decide (st = 200)
  | Except.error _ => false

/-- The tests probe (lines 141-150): the singular `test` path is tried
only when the `tests` request returned a non-200 status; an exception on
either request is caught and contributes nothing. -/
def testsSignal (probe : String → Except Unit Nat) (base : String) : Nat :=
  match probe (base ++ "/tests") with
  | Except.error _ => 0
  | Except.ok st =>
    if st = 200 then 1
    else
      match probe (base ++ "/test") with
      | Except.error _ => 0
      | Except.ok st2 => if st2 = 200 then 1 else 0

/-- `f"{base_url}/repos/{owner}/{name}/contents"` built from the
repository's own owner (line 128). -/
def repoBase (r : Repo) : String :=
  "https://api.github.com/repos/" ++ r.owner ++ "/" ++ r.name ++ "/contents"

/-- One iteration of the `analyze_repo_health` loop (lines 122-150). -/
def healthStep (probe : String → Except Unit Nat) (h : Health) (r : Repo) : Health :=
  ⟨h.has_readme + (if probeOk probe (repoBase r ++ "/README.md") then 1 else 0),
   h.has_ci + (if probeOk probe (repoBase r ++ "/.github/workflows") then 1 else 0),
   h.has_tests + testsSignal probe (repoBase r),
   h.has_license + (if r.license then 1 else 0),
   h.total_repos_checked⟩

/-- `analyze_repo_health` (lines 116-157). -/
def analyze_repo_health (probe : String → Except Unit Nat) (repos : List Repo) : Health :=
  let h := repos.foldl (healthStep probe) ⟨0, 0, 0, 0, 0⟩
  ⟨h.has_readme, h.has_ci, h.has_tests, h.has_license, repos.length⟩

/-- One entry of the `top_repos` output list. -/
structure TopRepo where
  name : String
  stars : Nat
  forks : Nat
  language : Option String
deriving DecidableEq

/-- Output record of `get_repo_stats`. -/
structure RepoStats where
  total_stars : Nat
  total_forks : Nat
  total_repos : Nat
  top_repos : List TopRepo
deriving DecidableEq

/-- Stable descending insertion by star count. -/
def insertDesc (x : Repo) : List Repo → List Repo
  | [] => [x]
  | y :: ys =>
    if y.stargazers_count ≤ x.stargazers_count then x :: y :: ys else y :: insertDesc x ys

/-- `sorted(repos, key=lambda x: x['stargazers_count'], reverse=True)`:
Python's sort is stable, and `reverse=True` keeps elements with equal
keys in input order. -/
def sortDescStars : List Repo → List Repo
  | [] => []
  | x :: xs => insertDesc x (sortDescStars xs)

/-- `get_repo_stats` (lines 159-177). -/
def get_repo_stats (repos : List Repo) : RepoStats :=
  ⟨(repos.map fun r => r.stargazers_count).sum,
   (repos.map fun r => r.forks_count).sum,
   repos.length,
   ((sortDescStars repos).take 5).map fun r =>
     ⟨r.name, r.stargazers_count, r.forks_count, r.language⟩⟩

/-- The five-field hireability breakdown (lines 200-206). -/
structure Hireability where
  public_repos : Nat
  stars : Nat
  followers : Nat
  consistency : ℚ
  collaboration : ℚ
deriving DecidableEq

/-- The `user` block of the analytics document. -/
structure UserBlock where
  username : String
  name : Option String
  bio : Option String
  public_repos : Nat
  followers : Nat
  following : Nat
  created_at : String
deriving DecidableEq

/-- The full analytics document (lines 208-229). -/
structure Analytics where
  user : UserBlock
  languages : List (String × Nat)
  commit_hours : List (Nat × Nat)
  commit_days : List (String × Nat)
  activity_types : List (String × Nat)
  repo_stats : RepoStats
  monthly_commits : List (String × Nat)
  monthly_commits_avg : ℚ
  pr_stats : PRStats
  repo_health : Health
  hireability_breakdown : Hireability
  last_updated : String

/-- The remote responses one run observes.  The HTTP client is the
out-of-scope external collaborator (spec section 1): `userStatus` and
`userBody` are the profile response, `repoPages`/`eventPages` the
successive page responses (`none` = non-success status), `probe` the
content-probe responses, `now` the value of `datetime.utcnow()` and
`localNowIso` of `datetime.now().isoformat()`. -/
structure World where
  userStatus : Nat
  userBody : Option Profile
  repoPages : List (Option (List Repo))
  eventPages : List (Option (List Event))
  probe : String → Except Unit Nat
  now : DateTime
  localNowIso : String

/-- `fetch_user_info` (lines 16-23): the parsed body on status 200,
otherwise the `None` failure marker. -/
def fetch_user_info (w : World) : Option Profile :=
  if w.userStatus = 200 then w.userBody else none

/-- The `fetch_repos` pagination loop (lines 25-38): accumulate pages
until a failed or empty page; pages beyond the supplied stream are empty. -/
def fetchReposGo : List (Option (List Repo)) → List Repo
  | [] => []
  | none :: _ => []
  | some [] :: _ => []
  | some rs :: rest => rs ++ fetchReposGo rest

/-- `fetch_repos` (lines 25-38). -/
def fetch_repos (w : World) : List Repo :=
  fetchReposGo w.repoPages

/-- The `fetch_events` loop (lines 40-49): at most `pages` pages,
stopping at the first failed page. -/
def fetchEventsGo : List (Option (List Event)) → Nat → List Event
  | _, 0 => []
  | [], _ => []
  | none :: _, _ => []
  | some evs :: rest, n + 1 => evs ++ fetchEventsGo rest n

/-- `fetch_events` (lines 40-49). -/
def fetch_events (w : World) (pages : Nat) : List Event :=
  fetchEventsGo w.eventPages pages

/-- `generate_analytics` (lines 179-230): `None` when the profile fetch
failed, otherwise the reducers run in source order and any exception
propagates. -/
def generate_analytics (w : World) : Except PyErr (Option Analytics) :=
  match fetch_user_info w with
  | none => Except.ok none
  | some u =>
    let repos := fetch_repos w
    let events := fetch_events w 3
    let languages := analyze_languages repos
    match analyze_commit_times events with
    | Except.error e => Except.error e
    | Except.ok (commit_hours, commit_days) =>
      let activity_types := analyze_activity_types events
      let repo_stats := get_repo_stats repos
      match analyze_monthly_commits w.now events 12 with
      | Except.error e => Except.error e
      | Except.ok monthly_commits =>
        let pr_stats := analyze_pr_stats events
        let repo_health := analyze_repo_health w.probe repos
        let monthly_vals := monthly_commits.map fun kv => kv.2
        let monthly_avg : ℚ :=
          if monthly_vals.length = 0 then 0
          else ((monthly_vals.sum : ℚ) / (monthly_vals.length : ℚ))
        let hireability : Hireability :=
          ⟨u.public_repos, repo_stats.total_stars, u.followers,
           pyRound1 monthly_avg, pyRound1 ((pr_stats.merge_rate.getD 0) * 100)⟩
        Except.ok (some
          ⟨⟨u.login, u.name, u.bio, u.public_repos, u.followers, u.following, u.created_at⟩,
           languages, commit_hours, commit_days, activity_types, repo_stats,
           monthly_commits, pyRound1 monthly_avg, pr_stats, repo_health,
           hireability, w.localNowIso⟩)

/-- `main` (lines 238-255): `save_to_file` runs exactly when
`generate_analytics` returned a truthy document (an exception would
propagate out of `main` before the save). -/
def main_saves (w : World) : Bool :=
  match generate_analytics w with
  | Except.ok (some _) => true
  | _ => false

/-- Whether an `Except` value is an error (a raised exception). -/
def isError {ε α : Type} : Except ε α → Bool
  | Except.error _ => true
  | Except.ok _ => false

/-! ### Concrete inputs used by witnesses and counterexamples -/

/-- A push event with a well-formed timestamp (spec section 8 scenario). -/
def demoPushEvent : Event :=
  ⟨"PushEvent", "2024-01-15T10:00:00Z", none⟩

/-- A push event whose `created_at` does not match the expected format. -/
def badPushEvent : Event :=
  ⟨"PushEvent", "not-a-timestamp", none⟩

/-- The merged pull-request event of the spec section 8 scenario:
action closed, merged, created 2024-01-01T00:00:00Z, closed
2024-01-02T12:00:00Z. -/
def prMergedEvent : Event :=
  ⟨"PullRequestEvent", "2024-01-03T00:00:00Z",
   some ⟨none, some ("closed"),
     some ⟨true, some ("2024-01-01T00:00:00Z"), some ("2024-01-02T12:00:00Z")⟩⟩⟩

/-- A merged pull-request event whose created and closed timestamps
coincide, giving a valid merge duration of zero hours. -/
def prZeroEvent : Event :=
  ⟨"PullRequestEvent", "2024-01-01T00:00:00Z",
   some ⟨none, some ("closed"),
     some ⟨true, some ("2024-01-01T00:00:00Z"), some ("2024-01-01T00:00:00Z")⟩⟩⟩

/-- A repository whose primary language is the empty string: truthy-false
for Python but not null. -/
def emptyLangRepo : Repo :=
  ⟨"r1", "o", some (""), 0, 0, false⟩

/-- A repository with a non-null, non-empty language. -/
def goRepo : Repo :=
  ⟨"r2", "o", some ("Go"), 1, 0, false⟩

/-- A demo user profile body. -/
def profileDemo : Profile :=
  ⟨"octocat", none, none, 1, 2, 3, "2020-01-01T00:00:00Z"⟩

/-- A world whose profile request fails with status 404. -/
def w404 : World :=
  ⟨404, some profileDemo, [], [], fun _ => Except.error (), ⟨2025, 10, 12, 0, 0, 0⟩,
   "2025-10-12T00:00:00"⟩

/-- A world whose profile request succeeds. -/
def wOk : World :=
  ⟨200, some profileDemo, [], [], fun _ => Except.error (), ⟨2025, 10, 12, 0, 0, 0⟩,
   "2025-10-12T00:00:00"⟩

/-! ### Association-list lemmas -/

theorem getCount_incrBy {α : Type} [DecidableEq α] (m : List (α × Nat)) (k k' : α) (n : Nat) :
    getCount (incrBy m k n) k' = getCount m k' + (if k' = k then n else 0) := by
  induction m with
  | nil =>
    by_cases h : k' = k <;> simp [incrBy, getCount, h]
  | cons hd tl ih =>
    obtain ⟨k0, v⟩ := hd
    by_cases h1 : k = k0
    · subst h1
      by_cases h2 : k' = k <;> simp [incrBy, getCount, h2]
    · by_cases h2 : k' = k0
      · subst h2
        have h3 : ¬k' = k := fun hh => h1 hh.symm
        simp [incrBy, getCount, h1, h3]
      · simp [incrBy, getCount, h1, h2, ih]

theorem sumVals_incrBy {α : Type} [DecidableEq α] (m : List (α × Nat)) (k : α) (n : Nat) :
    sumVals (incrBy m k n) = sumVals m + n := by
  induction m with
  | nil => simp [incrBy, sumVals]
  | cons hd tl ih =>
    obtain ⟨k0, v⟩ := hd
    by_cases h : k = k0 <;> simp [incrBy, sumVals, h] <;>
      simp [sumVals] at ih <;> omega

/-! ### Reducer-loop characterizations -/

theorem commitTimesLoop_filter (events : List Event)
    (acc : List (Nat × Nat) × List (String × Nat)) :
    commitTimesLoop events acc
      = commitTimesLoop (events.filter fun e => decide (e.type = "PushEvent")) acc := by
  induction events generalizing acc with
  | nil => rfl
  | cons e es ih =>
    by_cases hp : e.type = "PushEvent"
    · cases hs : strptime e.created_at with
      | none => simp [commitTimesLoop, List.filter_cons, hp, hs]
      | some dt => simp [commitTimesLoop, List.filter_cons, hp, hs, ih]
    · simp [commitTimesLoop, List.filter_cons, hp, ih]

theorem commitTimesLoop_isOk (events : List Event)
    (acc : List (Nat × Nat) × List (String × Nat)) :
    (commitTimesLoop events acc).isOk
      = events.all (fun e => !(decide (e.type = "PushEvent")) || (strptime e.created_at).isSome) := by
  induction events generalizing acc with
  | nil => rfl
  | cons e es ih =>
    by_cases hp : e.type = "PushEvent"
    · cases hs : strptime e.created_at with
      | none => simp [commitTimesLoop, hp, hs, Except.isOk, Except.toBool]
      | some dt => simp [commitTimesLoop, hp, hs, ih]
    · simp [commitTimesLoop, hp, ih]

theorem monthlyLoop_isOk (events : List Event) (counts : List (String × Nat)) :
    (monthlyLoop events counts).isOk
      = events.all (fun e => !(decide (e.type = "PushEvent")) || (strptime e.created_at).isSome) := by
  induction events generalizing counts with
  | nil => rfl
  | cons e es ih =>
    by_cases hp : e.type = "PushEvent"
    · cases hs : strptime e.created_at with
      | none => simp [monthlyLoop, hp, hs, Except.isOk, Except.toBool]
      | some dt => simp [monthlyLoop, hp, hs, ih]
    · simp [monthlyLoop, hp, ih]

theorem monthly_always_errors (now : DateTime) (events : List Event) (months : Nat)
    (hm : months ≠ 0) :
    isError (analyze_monthly_commits now events months) = true := by
  unfold analyze_monthly_commits
  cases monthlyLoop events [] with
  | error e => simp [isError]
  | ok counts => simp [hm, isError]

theorem monthly_nameError (now : DateTime) (events : List Event) (months : Nat)
    (hm : months ≠ 0)
    (hp : (events.all fun e =>
        !(decide (e.type = "PushEvent")) || (strptime e.created_at).isSome) = true) :
    analyze_monthly_commits now events months = Except.error PyErr.nameError := by
  unfold analyze_monthly_commits
  cases h : monthlyLoop events [] with
  | error e =>
    have := monthlyLoop_isOk events []
    rw [h, hp] at this
    simp [Except.isOk, Except.toBool] at this
  | ok counts => simp [hm]

theorem getCount_activity_aux (events : List Event) (m : List (String × Nat)) (t : String) :
    getCount (events.foldl (fun m e => incrBy m e.type 1) m) t
      = getCount m t + events.countP (fun e => decide (e.type = t)) := by
  induction events generalizing m with
  | nil => simp
  | cons e es ih =>
    simp only [List.foldl_cons, ih, getCount_incrBy, List.countP_cons]
    by_cases h : e.type = t
    · simp [h]; omega
    · have h2 : ¬t = e.type := fun hh => h hh.symm
      simp [h, h2]

theorem sumVals_languages_aux (repos : List Repo) (m : List (String × Nat)) :
    sumVals (repos.foldl langStep m) = sumVals m + repos.countP truthyLang := by
  induction repos generalizing m with
  | nil => simp
  | cons r rs ih =>
    simp only [List.foldl_cons, ih, List.countP_cons]
    cases hl : r.language with
    | none => simp [langStep, truthyLang, hl]
    | some s =>
      by_cases hs : s = ""
      · simp [langStep, truthyLang, hl, hs]
      · simp [langStep, truthyLang, hl, hs, sumVals_incrBy]
        omega

/-! ### Pull-request statistics -/

theorem prLoop_spec (events : List Event) (t m : Nat) (ds : List ℚ) :
    prLoop events (t, m, ds)
      = (t + events.countP (fun e => decide (e.type = "PullRequestEvent")),
         m + events.countP isMergedPR,
         ds ++ mergeDurations events) := by
  induction events generalizing t m ds with
  | nil => simp [prLoop, mergeDurations]
  | cons e es ih =>
    by_cases hp : e.type = "PullRequestEvent"
    · by_cases hme : (prActionClosed e && prMergedFlag e) = true
      · cases hd : prDuration e with
        | some d =>
          simp [prLoop, hp, hme, hd, ih, List.countP_cons, mergeDurations, isMergedPR,
            List.filter_cons, List.filterMap_cons]
          omega
        | none =>
          simp [prLoop, hp, hme, hd, ih, List.countP_cons, mergeDurations, isMergedPR,
            List.filter_cons, List.filterMap_cons]
          omega
      · simp [prLoop, hp, hme, ih, List.countP_cons, mergeDurations, isMergedPR,
          List.filter_cons]
        omega
    · simp [prLoop, hp, ih, List.countP_cons, mergeDurations, isMergedPR, List.filter_cons]

theorem analyze_pr_stats_eq (events : List Event) :
    analyze_pr_stats events =
      ⟨events.countP (fun e => decide (e.type = "PullRequestEvent")),
       events.countP isMergedPR,
       (if events.countP (fun e => decide (e.type = "PullRequestEvent")) = 0 then none
        else some ((events.countP isMergedPR : ℚ)
          / (events.countP (fun e => decide (e.type = "PullRequestEvent")) : ℚ))),
       (if mergeDurations events = [] then none
        else if (mergeDurations events).sum / ((mergeDurations events).length : ℚ) = 0 then none
        else some (pyRound1 ((mergeDurations events).sum / ((mergeDurations events).length : ℚ))))⟩ := by
  unfold analyze_pr_stats
  rw [prLoop_spec]
  by_cases hds : mergeDurations events = [] <;> simp [hds]

theorem merged_le_total (events : List Event) :
    events.countP isMergedPR
      ≤ events.countP (fun e => decide (e.type = "PullRequestEvent")) := by
  apply List.countP_mono_left
  intro e _ h
  simp only [isMergedPR, Bool.and_eq_true, decide_eq_true_eq] at h
  simp [h.1]

/-! ### Repository popularity: stable descending sort -/

theorem length_insertDesc (x : Repo) (l : List Repo) :
    (insertDesc x l).length = l.length + 1 := by
  induction l with
  | nil => rfl
  | cons y ys ih =>
    by_cases h : y.stargazers_count ≤ x.stargazers_count <;> simp [insertDesc, h, ih]

theorem length_sortDescStars (l : List Repo) : (sortDescStars l).length = l.length := by
  induction l with
  | nil => rfl
  | cons x xs ih => simp [sortDescStars, length_insertDesc, ih]

theorem mem_insertDesc {a x : Repo} {l : List Repo} :
    a ∈ insertDesc x l ↔ a = x ∨ a ∈ l := by
  induction l with
  | nil => simp [insertDesc]
  | cons y ys ih =>
    by_cases h : y.stargazers_count ≤ x.stargazers_count
    · simp [insertDesc, h]
    · simp [insertDesc, h, ih]
      tauto

theorem pairwise_insertDesc (x : Repo) (l : List Repo)
    (hl : l.Pairwise fun a b => b.stargazers_count ≤ a.stargazers_count) :
    (insertDesc x l).Pairwise fun a b => b.stargazers_count ≤ a.stargazers_count := by
  induction l with
  | nil => simp [insertDesc]
  | cons y ys ih =>
    rw [List.pairwise_cons] at hl
    by_cases h : y.stargazers_count ≤ x.stargazers_count
    · rw [insertDesc]
      simp only [h, if_pos]
      rw [List.pairwise_cons]
      constructor
      · intro b hb
        rcases List.mem_cons.mp hb with hb | hb
        · subst hb; omega
        · have := hl.1 b hb
          omega
      · rw [List.pairwise_cons]
        exact hl
    · rw [insertDesc]
      simp only [h, if_neg, if_false]
      rw [List.pairwise_cons]
      constructor
      · intro b hb
        rcases mem_insertDesc.mp hb with hb | hb
        · subst hb; omega
        · exact hl.1 b hb
      · exact ih hl.2

theorem pairwise_sortDescStars (l : List Repo) :
    (sortDescStars l).Pairwise fun a b => b.stargazers_count ≤ a.stargazers_count := by
  induction l with
  | nil => simp [sortDescStars]
  | cons x xs ih => exact pairwise_insertDesc x (sortDescStars xs) ih

theorem filter_insertDesc (x : Repo) (l : List Repo) (s : Nat) :
    (insertDesc x l).filter (fun r => decide (r.stargazers_count = s))
      = if x.stargazers_count = s
          then x :: l.filter (fun r => decide (r.stargazers_count = s))
          else l.filter (fun r => decide (r.stargazers_count = s)) := by
  induction l with
  | nil =>
    by_cases hx : x.stargazers_count = s <;> simp [insertDesc, hx]
  | cons y ys ih =>
    by_cases h : y.stargazers_count ≤ x.stargazers_count
    · rw [insertDesc, if_pos h]
      by_cases hx : x.stargazers_count = s <;> by_cases hy : y.stargazers_count = s <;>
        simp [List.filter_cons, hx, hy]
    · rw [insertDesc, if_neg h]
      have hlt : x.stargazers_count < y.stargazers_count := by omega
      by_cases hx : x.stargazers_count = s
      · have hy : ¬y.stargazers_count = s := by omega
        simp [List.filter_cons, hx, hy, ih]
      · by_cases hy : y.stargazers_count = s <;>
          simp [List.filter_cons, hx, hy, ih]

theorem filter_sortDescStars (l : List Repo) (s : Nat) :
    (sortDescStars l).filter (fun r => decide (r.stargazers_count = s))
      = l.filter (fun r => decide (r.stargazers_count = s)) := by
  induction l with
  | nil => rfl
  | cons x xs ih =>
    rw [sortDescStars, filter_insertDesc]
    by_cases hx : x.stargazers_count = s <;> simp [List.filter_cons, hx, ih]

/-! ### Repository health -/

theorem testsSignal_le_one (probe : String → Except Unit Nat) (base : String) :
    testsSignal probe base ≤ 1 := by
  unfold testsSignal
  cases probe (base ++ "/tests") with
  | error e => simp
  | ok st =>
    by_cases h : st = 200
    · simp [h]
    · cases probe (base ++ "/test") with
      | error e => simp [h]
      | ok st2 =>
        by_cases h2 : st2 = 200 <;> simp [h, h2]

theorem healthStep_fields (probe : String → Except Unit Nat) (h : Health) (r : Repo) :
    (healthStep probe h r).has_readme ≤ h.has_readme + 1
    ∧ (healthStep probe h r).has_ci ≤ h.has_ci + 1
    ∧ (healthStep probe h r).has_tests ≤ h.has_tests + 1
    ∧ (healthStep probe h r).has_license ≤ h.has_license + 1 := by
  refine ⟨?_, ?_, ?_, ?_⟩ <;> simp only [healthStep]
  · split <;> omega
  · split <;> omega
  · have := testsSignal_le_one probe (repoBase r); omega
  · split <;> omega

theorem health_foldl_bounds (probe : String → Except Unit Nat) (repos : List Repo)
    (h : Health) :
    (repos.foldl (healthStep probe) h).has_readme ≤ h.has_readme + repos.length
    ∧ (repos.foldl (healthStep probe) h).has_ci ≤ h.has_ci + repos.length
    ∧ (repos.foldl (healthStep probe) h).has_tests ≤ h.has_tests + repos.length
    ∧ (repos.foldl (healthStep probe) h).has_license ≤ h.has_license + repos.length := by
  induction repos generalizing h with
  | nil => simp
  | cons r rs ih =>
    simp only [List.foldl_cons, List.length_cons]
    have hstep := healthStep_fields probe h r
    have hih := ih (healthStep probe h r)
    exact ⟨by omega, by omega, by omega, by omega⟩

theorem roundHalfEven_intCast (n : ℤ) : roundHalfEven ((n : ℚ)) = n := by
  unfold roundHalfEven
  rw [Int.floor_intCast, sub_self]
  norm_num

theorem pyRound1_int (n : ℤ) : pyRound1 ((n : ℚ)) = (n : ℚ) := by
  unfold pyRound1
  have h : (n : ℚ) * 10 = ((n * 10 : ℤ) : ℚ) := by push_cast; ring
  rw [h, roundHalfEven_intCast]
  push_cast
  field_simp

/-! ### Claims -/

/-- C1: the claim states the intended behaviour of `analyze_monthly_commits`
(a mapping of exactly the N trailing months, back-filled with zeros and
chronologically sorted), but the code cannot return it: the back-fill loop
references `timedelta`, which the module never imports, so every call with
the default `months = 12` raises `NameError`.  The theorem evaluates the
embedded function at the failing input (empty event list, default month
count). -/
theorem monthly_commits_default_raises :
    analyze_monthly_commits ⟨2025, 10, 12, 0, 0, 0⟩ [] 12
      = Except.error PyErr.nameError := rfl

/-- C2 (amended): for every nonzero `months`, `analyze_monthly_commits`
never returns: it raises `NameError` from the back-fill loop whenever the
counting loop finishes (every push event's timestamp parses), and
otherwise raises `ValueError` first; consequently `generate_analytics`
never produces an analytics document once the profile fetch succeeded. -/
theorem monthly_commits_never_returns (now : DateTime) (events : List Event) (months : Nat)
    (hm : months ≠ 0) :
    isError (analyze_monthly_commits now events months) = true
    ∧ ((events.all fun e =>
          !(decide (e.type = "PushEvent")) || (strptime e.created_at).isSome) = true →
        analyze_monthly_commits now events months = Except.error PyErr.nameError)
    ∧ (∀ w : World, (fetch_user_info w).isSome = true →
        isError (generate_analytics w) = true) := by
  refine ⟨monthly_always_errors now events months hm,
    fun hp => monthly_nameError now events months hm hp, ?_⟩
  intro w hw
  unfold generate_analytics
  cases hu : fetch_user_info w with
  | none => rw [hu] at hw; simp at hw
  | some u =>
    dsimp only
    cases hct : analyze_commit_times (fetch_events w 3) with
    | error e => rfl
    | ok p =>
      obtain ⟨ch, cd⟩ := p
      dsimp only
      cases hmc : analyze_monthly_commits w.now (fetch_events w 3) 12 with
      | error e => rfl
      | ok mc =>
        have h12 := monthly_always_errors w.now (fetch_events w 3) 12 (by omega)
        rw [hmc] at h12
        simp [isError] at h12

/-- C2 witness: concrete instantiation with one well-formed push event and
a world whose profile fetch succeeds. -/
theorem monthly_commits_never_returns_witness :
    analyze_monthly_commits ⟨2025, 10, 12, 0, 0, 0⟩ [demoPushEvent] 12
        = Except.error PyErr.nameError
    ∧ isError (generate_analytics wOk) = true := by
  have h := monthly_commits_never_returns ⟨2025, 10, 12, 0, 0, 0⟩ [demoPushEvent] 12
    (by decide)
  exact ⟨h.2.1 (by decide), h.2.2 wOk (by decide)⟩

/-- C2 counterexample: the claim says every call raises `NameError`, but a
call whose event list contains a push event with a malformed timestamp
raises `ValueError` from the counting loop instead. -/
theorem monthly_commits_valueError_counterexample :
    analyze_monthly_commits ⟨2025, 10, 12, 0, 0, 0⟩ [badPushEvent] 12
      = Except.error PyErr.valueError := rfl

/-- C3 (amended): events with malformed timestamps are skipped without
failure by the commit-time histogram only when they are not push events
(the reducer never parses non-push timestamps); a push event with a
malformed `created_at` makes the whole reduction raise `ValueError`
instead of being skipped; the monthly-trend reducer never returns at all
for the hard-wired twelve months; and the activity-type histogram counts
every event under its type tag regardless of its timestamp. -/
theorem malformed_timestamp_handling (events : List Event) :
    ((analyze_commit_times events).isOk
      = events.all fun e => !(decide (e.type = "PushEvent")) || (strptime e.created_at).isSome)
    ∧ (analyze_commit_times events
      = analyze_commit_times (events.filter fun e => decide (e.type = "PushEvent")))
    ∧ (∀ t, getCount (analyze_activity_types events) t
      = events.countP fun e => decide (e.type = t))
    ∧ (∀ now : DateTime, isError (analyze_monthly_commits now events 12) = true) := by
  refine ⟨commitTimesLoop_isOk events ([], []), commitTimesLoop_filter events ([], []),
    ?_, ?_⟩
  · intro t
    have h := getCount_activity_aux events [] t
    simpa [analyze_activity_types, getCount] using h
  · intro now
    exact monthly_always_errors now events 12 (by omega)

/-- C3 counterexample: the claim says a time-based reducer skips a
malformed-timestamp event and the reduction over the whole list still
returns a result, but one push event with an unparseable `created_at`
makes `analyze_commit_times` raise `ValueError`. -/
theorem commit_times_malformed_push_fails :
    analyze_commit_times [badPushEvent] = Except.error PyErr.valueError := rfl

/-- C4 (amended): `avg_time_to_merge_hours` equals the arithmetic mean of
the computed merge durations rounded to one decimal, and is null if and
only if no merged pull-request event has valid timestamps OR the mean is
zero: line 113 tests the average for truthiness, not for `None`-ness. -/
theorem avg_merge_time_amended (events : List Event) :
    (mergeDurations events ≠ [] →
      (mergeDurations events).sum / ((mergeDurations events).length : ℚ) ≠ 0 →
      (analyze_pr_stats events).avg_time_to_merge_hours
        = some (pyRound1 ((mergeDurations events).sum / ((mergeDurations events).length : ℚ))))
    ∧ ((analyze_pr_stats events).avg_time_to_merge_hours = none
        ↔ mergeDurations events = []
          ∨ (mergeDurations events).sum / ((mergeDurations events).length : ℚ) = 0) := by
  rw [analyze_pr_stats_eq]
  by_cases hds : mergeDurations events = []
  · simp [hds]
  · by_cases hz : (mergeDurations events).sum / ((mergeDurations events).length : ℚ) = 0 <;>
      simp [hds, hz]

/-- C4 witness: the spec section 8 scenario — one merged pull request,
36 hours between created and closed. -/
theorem avg_merge_time_amended_witness :
    (analyze_pr_stats [prMergedEvent]).avg_time_to_merge_hours = some 36 := by
  have h2 : mergeDurations [prMergedEvent] = [36] := by
    have h1 : mergeDurations [prMergedEvent] = [((129600 : ℤ) : ℚ) / 3600] := rfl
    rw [h1]; norm_num
  have h := (avg_merge_time_amended [prMergedEvent]).1
    (by rw [h2]; simp) (by rw [h2]; norm_num)
  rw [h, h2]
  have hl : List.sum [(36 : ℚ)] / ((List.length [(36 : ℚ)]) : ℚ) = ((36 : ℤ) : ℚ) := by
    simp
  rw [hl, pyRound1_int]
  norm_num

/-- C4 counterexample: a merged pull request whose created and closed
timestamps are both valid and equal gives one valid duration (zero
hours), yet the code returns null, refuting the claimed
"null iff no valid durations" equivalence. -/
theorem avg_merge_time_claim_false :
    ¬ (((analyze_pr_stats [prZeroEvent]).avg_time_to_merge_hours = none)
        ↔ mergeDurations [prZeroEvent] = []) := by
  have h2 : mergeDurations [prZeroEvent] = [0] := by
    have h1 : mergeDurations [prZeroEvent] = [((0 : ℤ) : ℚ) / 3600] := rfl
    rw [h1]; norm_num
  have h3 : (analyze_pr_stats [prZeroEvent]).avg_time_to_merge_hours = none := by
    rw [analyze_pr_stats_eq, h2]
    norm_num
  intro hiff
  have h4 := hiff.mp h3
  rw [h2] at h4
  exact absurd h4 (by simp)

/-- C5: `merge_rate` is null iff `total_prs = 0` and otherwise lies in
`[0, 1]`; `total_prs` counts every pull-request event regardless of
action, and `merged_prs` counts exactly those with action closed and a
truthy nested merged flag. -/
theorem merge_rate_bounds (events : List Event) :
    (analyze_pr_stats events).total_prs
        = events.countP (fun e => decide (e.type = "PullRequestEvent"))
    ∧ (analyze_pr_stats events).merged_prs = events.countP isMergedPR
    ∧ ((analyze_pr_stats events).merge_rate = none
        ↔ (analyze_pr_stats events).total_prs = 0)
    ∧ ∀ r : ℚ, (analyze_pr_stats events).merge_rate = some r → 0 ≤ r ∧ r ≤ 1 := by
  rw [analyze_pr_stats_eq]
  refine ⟨rfl, rfl, ?_, ?_⟩
  · by_cases h : events.countP (fun e => decide (e.type = "PullRequestEvent")) = 0 <;>
      simp [h]
  · intro r hr
    by_cases h : events.countP (fun e => decide (e.type = "PullRequestEvent")) = 0
    · simp [h] at hr
    · simp only [h, if_false, if_neg] at hr
      simp only [Option.some.injEq] at hr
      subst hr
      have hMT := merged_le_total events
      have hTpos : 0 < events.countP (fun e => decide (e.type = "PullRequestEvent")) :=
        Nat.pos_of_ne_zero h
      constructor
      · exact div_nonneg (Nat.cast_nonneg _) (Nat.cast_nonneg _)
      · rw [div_le_one (by exact_mod_cast hTpos)]
        exact_mod_cast hMT

/-- C5 witness: concrete instantiation on one merged pull-request event. -/
theorem merge_rate_bounds_witness :
    (analyze_pr_stats [prMergedEvent]).merge_rate = some 1
    ∧ (0 : ℚ) ≤ 1 ∧ (1 : ℚ) ≤ 1 := by
  have h1 : (analyze_pr_stats [prMergedEvent]).merge_rate
      = some (((1 : ℕ) : ℚ) / ((1 : ℕ) : ℚ)) := rfl
  have h2 : (analyze_pr_stats [prMergedEvent]).merge_rate = some 1 := by
    rw [h1]; norm_num
  exact ⟨h2, (merge_rate_bounds [prMergedEvent]).2.2.2 1 h2⟩

/-- C6 (amended): the language-distribution values sum to at most the
repository count, with equality iff every repository's language is truthy
(non-null AND non-empty): `if repo['language']:` also excludes an
empty-string language, so "no null language" alone does not give
equality. -/
theorem language_distribution_amended (repos : List Repo) :
    sumVals (analyze_languages repos) ≤ repos.length
    ∧ (sumVals (analyze_languages repos) = repos.length ↔ repos.all truthyLang = true) := by
  have hs : sumVals (analyze_languages repos) = repos.countP truthyLang := by
    simpa [analyze_languages, sumVals] using sumVals_languages_aux repos []
  constructor
  · rw [hs]; exact List.countP_le_length _
  · rw [hs, List.countP_eq_length, List.all_eq_true]

/-- C6 witness: equality holds on a collection whose single repository
has a truthy language. -/
theorem language_distribution_amended_witness :
    sumVals (analyze_languages [goRepo]) = [goRepo].length :=
  (language_distribution_amended [goRepo]).2.mpr (by decide)

/-- C6 counterexample: a repository whose language is the empty string
has no null language, yet the distribution's values sum to 0 < 1,
refuting the claimed "equality iff no null language". -/
theorem language_distribution_claim_false :
    ¬ ((sumVals (analyze_languages [emptyLangRepo]) = [emptyLangRepo].length)
        ↔ ∀ r ∈ [emptyLangRepo], r.language ≠ none) := by decide

/-- C7: the top-repositories list has length `min 5 total`, is sorted by
descending star count, and the underlying stable sort keeps repositories
with equal star counts in their original input order (for every star
value, filtering the sorted collection gives exactly the same-ordered
filtering of the input). -/
theorem top_repos_sorted_stable (repos : List Repo) :
    (get_repo_stats repos).top_repos.length = min 5 repos.length
    ∧ (get_repo_stats repos).top_repos.Pairwise (fun a b => b.stars ≤ a.stars)
    ∧ ∀ s : Nat, (sortDescStars repos).filter (fun r => decide (r.stargazers_count = s))
        = repos.filter (fun r => decide (r.stargazers_count = s)) := by
  refine ⟨?_, ?_, filter_sortDescStars repos⟩
  · simp [get_repo_stats, List.length_take, length_sortDescStars]
  · have hp := pairwise_sortDescStars repos
    have hp5 : ((sortDescStars repos).take 5).Pairwise
        (fun a b => b.stargazers_count ≤ a.stargazers_count) :=
      hp.sublist (List.take_sublist 5 _)
    simp only [get_repo_stats, List.pairwise_map]
    exact hp5

/-- C8 (amended): with zero events the commit-hour and commit-day
histograms are empty and `pr_stats` reports zero totals with a null merge
rate, but the monthly commit trend is NOT an empty mapping: the reducer
raises `NameError` (and the intended back-fill would return twelve
zero-valued months, not an empty mapping). -/
theorem zero_events_amended :
    analyze_commit_times [] = Except.ok ([], [])
    ∧ analyze_activity_types [] = []
    ∧ analyze_pr_stats [] = ⟨0, 0, none, none⟩
    ∧ ∀ now : DateTime, analyze_monthly_commits now [] 12 = Except.error PyErr.nameError :=
  ⟨rfl, rfl, rfl, fun _ => rfl⟩

/-- C8 counterexample: on the empty event list the monthly-trend reducer
does not return an empty mapping — it raises `NameError`. -/
theorem zero_events_monthly_not_empty :
    analyze_monthly_commits ⟨2025, 1, 1, 0, 0, 0⟩ [] 12
      = Except.error PyErr.nameError := rfl

/-- C9: when the profile fetch returns a non-success status,
`fetch_user_info` returns the `None` failure marker, `generate_analytics`
returns it immediately (no document, no exception), and `main` never
invokes the save step. -/
theorem profile_failure_aborts (w : World) (h : w.userStatus ≠ 200) :
    fetch_user_info w = none
    ∧ generate_analytics w = Except.ok none
    ∧ main_saves w = false := by
  have h1 : fetch_user_info w = none := by simp [fetch_user_info, h]
  have h2 : generate_analytics w = Except.ok none := by
    unfold generate_analytics
    rw [h1]
  exact ⟨h1, h2, by simp [main_saves, h2]⟩

/-- C9 witness: a concrete world whose profile request answers 404. -/
theorem profile_failure_aborts_witness :
    generate_analytics w404 = Except.ok none ∧ main_saves w404 = false := by
  have h := profile_failure_aborts w404 (by decide)
  exact ⟨h.2.1, h.2.2⟩

/-- C10: every health count is at most `total_repos_checked`, which equals
the size of the input collection — each repository contributes at most one
to each signal (in particular the singular `test` probe only runs when the
`tests` probe did not succeed, so `has_tests` gains at most one per
repository). -/
theorem repo_health_bounds (probe : String → Except Unit Nat) (repos : List Repo) :
    (analyze_repo_health probe repos).total_repos_checked = repos.length
    ∧ (analyze_repo_health probe repos).has_readme
        ≤ (analyze_repo_health probe repos).total_repos_checked
    ∧ (analyze_repo_health probe repos).has_ci
        ≤ (analyze_repo_health probe repos).total_repos_checked
    ∧ (analyze_repo_health probe repos).has_tests
        ≤ (analyze_repo_health probe repos).total_repos_checked
    ∧ (analyze_repo_health probe repos).has_license
        ≤ (analyze_repo_health probe repos).total_repos_checked := by
  have h := health_foldl_bounds probe repos ⟨0, 0, 0, 0, 0⟩
  simp only [Health.has_readme, Health.has_ci, Health.has_tests, Health.has_license,
    Nat.zero_add] at h
  refine ⟨rfl, ?_, ?_, ?_, ?_⟩ <;> simp only [analyze_repo_health] <;> omega
